import Mathlib

/-!
Shallow embedding of the `CyclicBuffer` class from
`src/CyclicBuffer/cyclicbuffer.cpp` / `cyclicbuffer.h`.

Machine integers: every index field of the C++ class has type `unsigned int`
(32 bits).  We model them as `Nat` and insert `% u32` exactly where the C++
arithmetic can wrap (increments, the `index + bottom_index` translation,
`buffer_size - 1`).  Bytes (`unsigned char`) are modelled as `Nat`; no
arithmetic is ever performed on them by the source, so no truncation is
needed.  The backing allocation `unsigned char *buffer` is modelled as a
`List Nat`; memory returned by `new` / `realloc` is indeterminate, so the
constructor and `ReallocBuffer` take the fresh memory contents as an explicit
parameter.  `realloc` failure is modelled by an explicit `alloc_ok` flag.
-/

def u32 : Nat := 4294967296

/-- Subtraction of one in C `unsigned int` arithmetic: wraps at zero.  For
every representable value `a < 2^32` this agrees with `(a + 2^32 - 1) % 2^32`. -/
def usub1 (a : Nat) : Nat := if a = 0 then u32 - 1 else a - 1

/-- The `buffer_error` enumeration of `cyclicbuffer.h`. -/
inductive buffer_error where
  | BUFFER_OK
  | BUFFER_INVALID_SIZE
  | BUFFER_ALLOCATION_ERROR
  | BUFFER_INDEX_GREATER
  | BUFFER_INDEX_LESS
  | BUFFER_INDEX_COLLISION_LESS
  | BUFFER_INDEX_COLLISION_GREATER
  | BUFFER_INCORRECT_SIZE
  | BUFFER_INDEX_OUT_OF_RANGE
  | BUFFER_UNDEFINED_ERROR
deriving DecidableEq, Repr

open buffer_error

/-- The state of a `CyclicBuffer` instance: its private fields. -/
structure CyclicBuffer where
  buffer_error_code : buffer_error
  buffer : List Nat
  buffer_size : Nat
  top_index : Nat
  bottom_index : Nat
  write_ptr : Nat
  read_ptr : Nat
deriving DecidableEq, Repr

/-- Read `buffer[i]` (reads the source never makes out of range default to 0). -/
def byteAt (l : List Nat) (i : Nat) : Nat := l.getD i 0

/-- The loop `for(i = a; i < a + n; i++) buffer[i] = 0;` (n iterations). -/
def zeroFrom (l : List Nat) (a : Nat) : Nat → List Nat
  | 0 => l
  | n + 1 => zeroFrom (l.set a 0) (a + 1) n

/-- `CyclicBuffer::ClearBuffer`: zeroes `buffer[i]` for
`bottom_index <= i < top_index` (the loop condition is strict). -/
def ClearBuffer (s : CyclicBuffer) : CyclicBuffer :=
  { s with buffer := zeroFrom s.buffer s.bottom_index (s.top_index - s.bottom_index) }

/-- The constructor `CyclicBuffer::CyclicBuffer(buf_size, success)`.
`mem` is the indeterminate content of the freshly allocated array.
Returns `none` when construction fails (`buf_size == 0`). -/
def construct (buf_size : Nat) (mem : List Nat) : Option CyclicBuffer :=
  if buf_size = 0 then none
  else some (ClearBuffer
    { buffer_error_code := BUFFER_UNDEFINED_ERROR
      buffer := mem
      buffer_size := buf_size
      top_index := buf_size - 1
      bottom_index := 0
      write_ptr := 0
      read_ptr := 0 })

/-- `CyclicBuffer::Push(ch)`: stores at `write_ptr`, then `++write_ptr`,
wrapping to `bottom_index` once the incremented value exceeds `top_index`. -/
def Push (s : CyclicBuffer) (ch : Nat) : CyclicBuffer :=
  let buf := s.buffer.set s.write_ptr ch
  let w := (s.write_ptr + 1) % u32
  if w > s.top_index then
    { s with buffer := buf, write_ptr := s.bottom_index }
  else
    { s with buffer := buf, write_ptr := w }

/-- `CyclicBuffer::Pop()`: sentinel 0 when `read_ptr == write_ptr`, otherwise
returns `buffer[read_ptr]` and advances `read_ptr` with wrap at `top_index`. -/
def Pop (s : CyclicBuffer) : Nat × CyclicBuffer :=
  if s.read_ptr = s.write_ptr then (0, s)
  else if s.read_ptr = s.top_index then
    (byteAt s.buffer s.top_index, { s with read_ptr := s.bottom_index })
  else
    (byteAt s.buffer s.read_ptr, { s with read_ptr := (s.read_ptr + 1) % u32 })

/-- `CyclicBuffer::SetPopIndex(index)`. -/
def SetPopIndex (s : CyclicBuffer) (index : Nat) : buffer_error × CyclicBuffer :=
  if index > s.top_index then
    (BUFFER_INDEX_GREATER, { s with buffer_error_code := BUFFER_INDEX_GREATER })
  else if index < s.bottom_index then
    (BUFFER_INDEX_LESS, { s with buffer_error_code := BUFFER_INDEX_LESS })
  else
    (BUFFER_OK, { s with read_ptr := index, buffer_error_code := BUFFER_OK })

/-- `CyclicBuffer::SetPushIndex(index)`. -/
def SetPushIndex (s : CyclicBuffer) (index : Nat) : buffer_error × CyclicBuffer :=
  if index > s.top_index then
    (BUFFER_INDEX_GREATER, { s with buffer_error_code := BUFFER_INDEX_GREATER })
  else if index < s.bottom_index then
    (BUFFER_INDEX_LESS, { s with buffer_error_code := BUFFER_INDEX_LESS })
  else
    (BUFFER_OK, { s with write_ptr := index, buffer_error_code := BUFFER_OK })

/-- `CyclicBuffer::SetTopIndex(index)`: bound and collision checks, zeroes the
newly included bytes `top_index+1 .. index`, then clamps both cursors that
exceed the new top back to `bottom_index`. -/
def SetTopIndex (s : CyclicBuffer) (index : Nat) : buffer_error × CyclicBuffer :=
  if index > usub1 s.buffer_size then
    (BUFFER_INDEX_GREATER, { s with buffer_error_code := BUFFER_INDEX_GREATER })
  else if index < s.bottom_index then
    (BUFFER_INDEX_COLLISION_LESS,
      { s with buffer_error_code := BUFFER_INDEX_COLLISION_LESS })
  else
    let buf := if s.top_index < index then
        zeroFrom s.buffer (s.top_index + 1) (index - s.top_index) else s.buffer
    let w := if s.write_ptr > index then s.bottom_index else s.write_ptr
    let r := if s.read_ptr > index then s.bottom_index else s.read_ptr
    (BUFFER_OK,
      { s with
        buffer := buf
        top_index := index
        write_ptr := w
        read_ptr := r
        buffer_error_code := BUFFER_OK })

/-- `CyclicBuffer::SetBottomIndex(index)`: bound and collision checks, zeroes
the newly included bytes `index .. bottom_index-1`, then lifts both cursors
that fall below the new bottom up to it. -/
def SetBottomIndex (s : CyclicBuffer) (index : Nat) : buffer_error × CyclicBuffer :=
  if index > usub1 s.buffer_size then
    (BUFFER_INDEX_GREATER, { s with buffer_error_code := BUFFER_INDEX_GREATER })
  else if index > s.top_index then
    (BUFFER_INDEX_COLLISION_GREATER,
      { s with buffer_error_code := BUFFER_INDEX_COLLISION_GREATER })
  else
    let buf := if index < s.bottom_index then
        zeroFrom s.buffer index (s.bottom_index - index) else s.buffer
    let w := if s.write_ptr < index then index else s.write_ptr
    let r := if s.read_ptr < index then index else s.read_ptr
    (BUFFER_OK,
      { s with
        buffer := buf
        bottom_index := index
        write_ptr := w
        read_ptr := r
        buffer_error_code := BUFFER_OK })

/-- `CyclicBuffer::ReallocBuffer(size)`.  `alloc_ok` models whether
`realloc` succeeds; `fresh` is the indeterminate content of any newly
allocated tail.  On success borders are clamped to `size-1`, an out of range
`read_ptr` is reset to the (clamped) `bottom_index`, an out of range
`write_ptr` is reset to `0`. -/
def ReallocBuffer (s : CyclicBuffer) (size : Nat) (alloc_ok : Bool)
    (fresh : List Nat) : buffer_error × CyclicBuffer :=
  if size = 0 then
    (BUFFER_INCORRECT_SIZE, { s with buffer_error_code := BUFFER_INCORRECT_SIZE })
  else if size = s.buffer_size then
    (BUFFER_OK, { s with buffer_error_code := BUFFER_OK })
  else if alloc_ok = false then
    (BUFFER_ALLOCATION_ERROR,
      { s with buffer_error_code := BUFFER_ALLOCATION_ERROR })
  else
    let buf := s.buffer.take size ++ fresh.take (size - s.buffer.length)
    let highest := size - 1
    let top := if s.top_index > highest then highest else s.top_index
    let bottom := if s.bottom_index > highest then highest else s.bottom_index
    let r := if s.read_ptr > highest then bottom else s.read_ptr
    let w := if s.write_ptr > highest then 0 else s.write_ptr
    (BUFFER_OK,
      { s with
        buffer := buf
        buffer_size := size
        top_index := top
        bottom_index := bottom
        read_ptr := r
        write_ptr := w
        buffer_error_code := BUFFER_OK })

/-- `CyclicBuffer::ResetBuffer()`: restores construction topology and zeroes
`buffer[0] .. buffer[top_index]` inclusive. -/
def ResetBuffer (s : CyclicBuffer) : CyclicBuffer :=
  let top := usub1 s.buffer_size
  { s with
    top_index := top
    read_ptr := 0
    write_ptr := 0
    bottom_index := 0
    buffer := zeroFrom s.buffer 0 (top + 1) }

/-- The index translation shared by `GetValueAt` / `SetValueAt`:
`index_t = index; if(use_offset) index_t += bottom_index;` in `unsigned int`
arithmetic (wraps modulo 2^32). -/
def translateIndex (s : CyclicBuffer) (index : Nat) (use_offset : Bool) : Nat :=
  if use_offset then (index + s.bottom_index) % u32 else index

/-- `CyclicBuffer::GetValueAt(index, use_offset, look_outside_borders)`. -/
def GetValueAt (s : CyclicBuffer) (index : Nat) (use_offset : Bool)
    (look_outside_borders : Bool) : Nat :=
  let index_t := translateIndex s index use_offset
  if index_t ≥ s.buffer_size then 0
  else if look_outside_borders = false ∧
      (index_t > s.top_index ∨ index_t < s.bottom_index) then 0
  else byteAt s.buffer index_t

/-- `CyclicBuffer::SetValueAt(index, value, use_offset, look_outside_borders)`.
Note: unlike the other status returning members it never assigns
`buffer_error_code`. -/
def SetValueAt (s : CyclicBuffer) (index : Nat) (value : Nat)
    (use_offset : Bool) (look_outside_borders : Bool) :
    buffer_error × CyclicBuffer :=
  let index_t := translateIndex s index use_offset
  if index_t ≥ s.buffer_size then (BUFFER_INDEX_OUT_OF_RANGE, s)
  else if look_outside_borders = false ∧
      (index_t > s.top_index ∨ index_t < s.bottom_index) then
    (BUFFER_INDEX_OUT_OF_RANGE, s)
  else (BUFFER_OK, { s with buffer := s.buffer.set index_t value })

/-- `CyclicBuffer::GetBufferSize()`: the window size
`(top_index - bottom_index) + 1`. -/
def GetBufferSize (s : CyclicBuffer) : Nat := (s.top_index - s.bottom_index) + 1

/-- Structural well-formedness of a buffer state: the allocation matches
`buffer_size`, every index fits in `unsigned int`, and the window is inside
the allocation.  Every state produced by a successful construction satisfies
this. -/
def WF (s : CyclicBuffer) : Prop :=
  s.buffer.length = s.buffer_size ∧ s.buffer_size < u32 ∧
  s.bottom_index ≤ s.top_index ∧ s.top_index < s.buffer_size

/-- The cursor invariant of the specification:
`lowerBorder ≤ writeCursor ≤ upperBorder` and
`lowerBorder ≤ readCursor ≤ upperBorder`. -/
def InWindow (s : CyclicBuffer) : Prop :=
  s.bottom_index ≤ s.write_ptr ∧ s.write_ptr ≤ s.top_index ∧
  s.bottom_index ≤ s.read_ptr ∧ s.read_ptr ≤ s.top_index

instance (s : CyclicBuffer) : Decidable (WF s) := by
  unfold WF; infer_instance

instance (s : CyclicBuffer) : Decidable (InWindow s) := by
  unfold InWindow; infer_instance

/-- Pushing a list of bytes in order. -/
def pushAll (s : CyclicBuffer) (l : List Nat) : CyclicBuffer := l.foldl Push s

/-- Popping `n` times, collecting the returned bytes in order. -/
def popN : CyclicBuffer → Nat → List Nat × CyclicBuffer
  | s, 0 => ([], s)
  | s, n + 1 =>
    let p := Pop s
    let q := popN p.2 n
    (p.1 :: q.1, q.2)

/-- The cyclic successor used by both cursors: increment, wrapping to
`bottom_index` once the value exceeds `top_index`. -/
def nextIdx (s : CyclicBuffer) (i : Nat) : Nat :=
  if i + 1 > s.top_index then s.bottom_index else i + 1

/-- The state effect of a successful `Pop` (its read-cursor advance). -/
def popStep (s : CyclicBuffer) : CyclicBuffer :=
  if s.read_ptr = s.top_index then { s with read_ptr := s.bottom_index }
  else { s with read_ptr := (s.read_ptr + 1) % u32 }

/-- Number of pushes needed before `write_ptr` reaches `read_ptr` (cyclic
forward distance from the write cursor to the read cursor in the window). -/
def distF (s : CyclicBuffer) : Nat :=
  if s.write_ptr ≤ s.read_ptr then s.read_ptr - s.write_ptr
  else GetBufferSize s - (s.write_ptr - s.read_ptr)

attribute [ext] CyclicBuffer

/-- A successfully constructed capacity-1 buffer (window size 1), as the
constructor leaves it. -/
def c1cex : CyclicBuffer :=
  ⟨BUFFER_UNDEFINED_ERROR, [0], 1, 0, 0, 0, 0⟩

/-- A successfully constructed capacity-4 buffer (window size 4). -/
def c1wit : CyclicBuffer :=
  ⟨BUFFER_UNDEFINED_ERROR, [0, 0, 0, 0], 4, 3, 0, 0, 0⟩

/-- A capacity-2 buffer with both cursors at index 1. -/
def c9wit : CyclicBuffer :=
  ⟨BUFFER_OK, [3, 4], 2, 1, 0, 1, 1⟩

/-- A capacity-4 buffer whose window is [1, 3] (`bottom_index = 1`) and whose
byte at absolute index 0 is 7. -/
def c10state : CyclicBuffer :=
  ⟨BUFFER_OK, [7, 0, 0, 0], 4, 3, 1, 1, 1⟩

/-- A capacity-2 buffer holding bytes 1, 2. -/
def c7wit : CyclicBuffer :=
  ⟨BUFFER_OK, [1, 2], 2, 1, 0, 0, 0⟩

/-- A freshly constructed capacity-4 buffer. -/
def c4cex : CyclicBuffer :=
  ⟨BUFFER_OK, [0, 0, 0, 0], 4, 3, 0, 0, 0⟩

/-- A capacity-2 buffer whose cached status is `BUFFER_OK`. -/
def c6cex : CyclicBuffer :=
  ⟨BUFFER_OK, [0, 0], 2, 1, 0, 0, 0⟩

/-- A capacity-4 buffer with window [0, 3] and both cursors at 3. -/
def c5cex : CyclicBuffer :=
  ⟨BUFFER_OK, [0, 0, 0, 0], 4, 3, 0, 3, 3⟩

/-- A capacity-3 buffer with window [0, 2]. -/
def c8wit : CyclicBuffer :=
  ⟨BUFFER_OK, [0, 0, 0], 3, 2, 0, 0, 0⟩

/-- A capacity-10 buffer with window [5, 9], read cursor 5, write cursor 9,
satisfying the cursor invariant. -/
def c2cex : CyclicBuffer :=
  ⟨BUFFER_OK, [0, 0, 0, 0, 0, 0, 0, 0, 0, 0], 10, 9, 5, 9, 5⟩

/-! ### Verification of the claims -/

/-! ### Basic lemmas about the byte array model -/

theorem usub1_eq (n : Nat) (h1 : 1 ≤ n) : usub1 n = n - 1 := by
  unfold usub1
  rw [if_neg (by omega)]

theorem byteAt_set_self (l : List Nat) (i v : Nat) (h : i < l.length) :
    byteAt (l.set i v) i = v := by
  unfold byteAt
  rw [List.getD_eq_getElem?_getD, List.getElem?_set_eq_of_lt v h]
  rfl

theorem byteAt_set_ne (l : List Nat) (i j v : Nat) (h : i ≠ j) :
    byteAt (l.set i v) j = byteAt l j := by
  unfold byteAt
  rw [List.getD_eq_getElem?_getD, List.getElem?_set_ne h, ← List.getD_eq_getElem?_getD]

theorem zeroFrom_length (n : Nat) : ∀ (l : List Nat) (a : Nat),
    (zeroFrom l a n).length = l.length := by
  induction n with
  | zero => intro l a; rfl
  | succ m ih =>
    intro l a
    unfold zeroFrom
    rw [ih, List.length_set]

theorem byteAt_zeroFrom_lo (n : Nat) : ∀ (l : List Nat) (a i : Nat), i < a →
    byteAt (zeroFrom l a n) i = byteAt l i := by
  induction n with
  | zero => intro l a i _; rfl
  | succ m ih =>
    intro l a i h
    unfold zeroFrom
    rw [ih (l.set a 0) (a + 1) i (by omega), byteAt_set_ne l a i 0 (by omega)]

theorem byteAt_zeroFrom_hi (n : Nat) : ∀ (l : List Nat) (a i : Nat), a + n ≤ i →
    byteAt (zeroFrom l a n) i = byteAt l i := by
  induction n with
  | zero => intro l a i _; rfl
  | succ m ih =>
    intro l a i h
    unfold zeroFrom
    rw [ih (l.set a 0) (a + 1) i (by omega), byteAt_set_ne l a i 0 (by omega)]

theorem byteAt_zeroFrom_mid (n : Nat) : ∀ (l : List Nat) (a i : Nat),
    a ≤ i → i < a + n → i < l.length → byteAt (zeroFrom l a n) i = 0 := by
  induction n with
  | zero => intro l a i h1 h2 _; omega
  | succ m ih =>
    intro l a i h1 h2 h3
    unfold zeroFrom
    by_cases hia : i = a
    · subst hia
      rw [byteAt_zeroFrom_lo m (l.set i 0) (i + 1) i (by omega)]
      exact byteAt_set_self l i 0 h3
    · exact ih (l.set a 0) (a + 1) i (by omega) (by omega) (by simpa using h3)

/-! ### Step normal forms for `Push` and the read-advance of `Pop` -/

theorem Push_buffer (s : CyclicBuffer) (ch : Nat) :
    (Push s ch).buffer = s.buffer.set s.write_ptr ch := by
  unfold Push; dsimp only; split <;> rfl

theorem Push_read (s : CyclicBuffer) (ch : Nat) :
    (Push s ch).read_ptr = s.read_ptr := by
  unfold Push; dsimp only; split <;> rfl

theorem Push_top (s : CyclicBuffer) (ch : Nat) :
    (Push s ch).top_index = s.top_index := by
  unfold Push; dsimp only; split <;> rfl

theorem Push_bottom (s : CyclicBuffer) (ch : Nat) :
    (Push s ch).bottom_index = s.bottom_index := by
  unfold Push; dsimp only; split <;> rfl

theorem Push_size (s : CyclicBuffer) (ch : Nat) :
    (Push s ch).buffer_size = s.buffer_size := by
  unfold Push; dsimp only; split <;> rfl

theorem Push_code (s : CyclicBuffer) (ch : Nat) :
    (Push s ch).buffer_error_code = s.buffer_error_code := by
  unfold Push; dsimp only; split <;> rfl

theorem Push_write (s : CyclicBuffer) (ch : Nat) (hwf : WF s)
    (hw : s.write_ptr ≤ s.top_index) :
    (Push s ch).write_ptr = nextIdx s s.write_ptr := by
  obtain ⟨h1, h2, h3, h4⟩ := hwf
  have hm : (s.write_ptr + 1) % u32 = s.write_ptr + 1 :=
    Nat.mod_eq_of_lt (by unfold u32 at *; omega)
  unfold Push nextIdx
  dsimp only
  rw [hm]
  by_cases hc : s.write_ptr + 1 > s.top_index
  · rw [if_pos hc, if_pos hc]
  · rw [if_neg hc, if_neg hc]

theorem popStep_buffer (s : CyclicBuffer) : (popStep s).buffer = s.buffer := by
  unfold popStep; split <;> rfl

theorem popStep_write (s : CyclicBuffer) : (popStep s).write_ptr = s.write_ptr := by
  unfold popStep; split <;> rfl

theorem popStep_top (s : CyclicBuffer) : (popStep s).top_index = s.top_index := by
  unfold popStep; split <;> rfl

theorem popStep_bottom (s : CyclicBuffer) :
    (popStep s).bottom_index = s.bottom_index := by
  unfold popStep; split <;> rfl

theorem popStep_size (s : CyclicBuffer) :
    (popStep s).buffer_size = s.buffer_size := by
  unfold popStep; split <;> rfl

theorem popStep_code (s : CyclicBuffer) :
    (popStep s).buffer_error_code = s.buffer_error_code := by
  unfold popStep; split <;> rfl

theorem popStep_read (s : CyclicBuffer) (hwf : WF s)
    (hr : s.read_ptr ≤ s.top_index) :
    (popStep s).read_ptr = nextIdx s s.read_ptr := by
  obtain ⟨h1, h2, h3, h4⟩ := hwf
  have hm : (s.read_ptr + 1) % u32 = s.read_ptr + 1 :=
    Nat.mod_eq_of_lt (by unfold u32 at *; omega)
  unfold popStep nextIdx
  by_cases hc : s.read_ptr = s.top_index
  · rw [if_pos hc, if_pos (by omega)]
  · rw [if_neg hc, if_neg (by omega)]
    exact hm

theorem Pop_of_ne (s : CyclicBuffer) (h : s.read_ptr ≠ s.write_ptr) :
    Pop s = (byteAt s.buffer s.read_ptr, popStep s) := by
  unfold Pop popStep
  rw [if_neg h]
  by_cases hc : s.read_ptr = s.top_index
  · rw [if_pos hc, if_pos hc, hc]
  · rw [if_neg hc, if_neg hc]

theorem nextIdx_mem (s : CyclicBuffer) (i : Nat) (hwf : WF s)
    (h1 : s.bottom_index ≤ i) (h2 : i ≤ s.top_index) :
    s.bottom_index ≤ nextIdx s i ∧ nextIdx s i ≤ s.top_index := by
  obtain ⟨_, _, h3, _⟩ := hwf
  unfold nextIdx
  split <;> omega

theorem WF_Push (s : CyclicBuffer) (ch : Nat) (hwf : WF s) : WF (Push s ch) := by
  obtain ⟨h1, h2, h3, h4⟩ := hwf
  refine ⟨?_, ?_, ?_, ?_⟩ <;>
    simp only [Push_buffer, Push_size, Push_top, Push_bottom, List.length_set] <;>
    assumption

theorem InWindow_Push (s : CyclicBuffer) (ch : Nat) (hwf : WF s)
    (hin : InWindow s) : InWindow (Push s ch) := by
  obtain ⟨i1, i2, i3, i4⟩ := hin
  have hb := nextIdx_mem s s.write_ptr hwf i1 i2
  refine ⟨?_, ?_, ?_, ?_⟩ <;>
    simp only [Push_write s ch hwf i2, Push_read, Push_top, Push_bottom] <;>
    omega

theorem WF_popStep (s : CyclicBuffer) (hwf : WF s) : WF (popStep s) := by
  obtain ⟨h1, h2, h3, h4⟩ := hwf
  refine ⟨?_, ?_, ?_, ?_⟩ <;>
    simp only [popStep_buffer, popStep_size, popStep_top, popStep_bottom] <;>
    assumption

theorem InWindow_popStep (s : CyclicBuffer) (hwf : WF s)
    (hin : InWindow s) : InWindow (popStep s) := by
  obtain ⟨i1, i2, i3, i4⟩ := hin
  have hb := nextIdx_mem s s.read_ptr hwf i3 i4
  refine ⟨?_, ?_, ?_, ?_⟩ <;>
    simp only [popStep_write, popStep_read s hwf i4, popStep_top, popStep_bottom] <;>
    omega

theorem distF_ne (s : CyclicBuffer) (hd : 0 < distF s) :
    s.read_ptr ≠ s.write_ptr := by
  unfold distF GetBufferSize at hd
  intro h
  rw [h] at hd
  simp at hd

theorem distF_Push (s : CyclicBuffer) (ch : Nat) (hwf : WF s) (hin : InWindow s)
    (hd : 0 < distF s) : distF (Push s ch) = distF s - 1 := by
  obtain ⟨w1, w2, w3, w4⟩ := hwf
  obtain ⟨i1, i2, i3, i4⟩ := hin
  unfold distF GetBufferSize at hd ⊢
  rw [Push_write s ch ⟨w1, w2, w3, w4⟩ i2, Push_read, Push_top, Push_bottom]
  unfold nextIdx
  split at hd <;>
    by_cases hw : s.write_ptr + 1 > s.top_index <;>
      simp only [hw, if_true, if_false, ite_true, ite_false] <;>
        split <;> omega

theorem distF_Push_of_eq (s : CyclicBuffer) (ch : Nat) (hwf : WF s)
    (hin : InWindow s) (he : s.read_ptr = s.write_ptr) :
    distF (Push s ch) = GetBufferSize s - 1 := by
  obtain ⟨w1, w2, w3, w4⟩ := hwf
  obtain ⟨i1, i2, i3, i4⟩ := hin
  unfold distF GetBufferSize
  rw [Push_write s ch ⟨w1, w2, w3, w4⟩ i2, Push_read, Push_top, Push_bottom, he]
  unfold nextIdx
  by_cases hw : s.write_ptr + 1 > s.top_index <;>
    simp only [hw, if_true, if_false, ite_true, ite_false] <;>
      split <;> omega

theorem GetBufferSize_Push (s : CyclicBuffer) (ch : Nat) :
    GetBufferSize (Push s ch) = GetBufferSize s := by
  unfold GetBufferSize
  rw [Push_top, Push_bottom]

theorem GetBufferSize_popStep (s : CyclicBuffer) :
    GetBufferSize (popStep s) = GetBufferSize s := by
  unfold GetBufferSize
  rw [popStep_top, popStep_bottom]

theorem nextIdx_Push (s : CyclicBuffer) (ch i : Nat) :
    nextIdx (Push s ch) i = nextIdx s i := by
  unfold nextIdx
  rw [Push_top, Push_bottom]

theorem nextIdx_popStep (s : CyclicBuffer) (i : Nat) :
    nextIdx (popStep s) i = nextIdx s i := by
  unfold nextIdx
  rw [popStep_top, popStep_bottom]

theorem popStep_Push_comm (s : CyclicBuffer) (ch : Nat) (hwf : WF s)
    (hw : s.write_ptr ≤ s.top_index) (hr : s.read_ptr ≤ s.top_index) :
    popStep (Push s ch) = Push (popStep s) ch := by
  have hwf2 : WF (Push s ch) := WF_Push s ch hwf
  have hwf3 : WF (popStep s) := WF_popStep s hwf
  have hr2 : (Push s ch).read_ptr ≤ (Push s ch).top_index := by
    rw [Push_read, Push_top]; exact hr
  have hw3 : (popStep s).write_ptr ≤ (popStep s).top_index := by
    rw [popStep_write, popStep_top]; exact hw
  ext : 1
  · rw [popStep_code, Push_code, Push_code, popStep_code]
  · rw [popStep_buffer, Push_buffer, Push_buffer, popStep_buffer, popStep_write]
  · rw [popStep_size, Push_size, Push_size, popStep_size]
  · rw [popStep_top, Push_top, Push_top, popStep_top]
  · rw [popStep_bottom, Push_bottom, Push_bottom, popStep_bottom]
  · rw [popStep_write, Push_write s ch hwf hw,
      Push_write (popStep s) ch hwf3 hw3, popStep_write, nextIdx_popStep]
  · rw [popStep_read (Push s ch) hwf2 hr2, Push_read, nextIdx_Push,
      Push_read, popStep_read s hwf hr]

theorem pushAll_cons (s : CyclicBuffer) (ch : Nat) (t : List Nat) :
    pushAll s (ch :: t) = pushAll (Push s ch) t := rfl

theorem popN_succ (s : CyclicBuffer) (n : Nat) :
    popN s (n + 1) =
      ((Pop s).1 :: (popN (Pop s).2 n).1, (popN (Pop s).2 n).2) := rfl

/-- Popping once after a run of pushes that stays strictly short of the read
cursor returns the byte currently under the read cursor and commutes with the
pushes. -/
theorem pop_pushAll (l : List Nat) : ∀ s : CyclicBuffer, WF s → InWindow s →
    l.length < distF s →
    Pop (pushAll s l) = (byteAt s.buffer s.read_ptr, pushAll (popStep s) l) := by
  induction l with
  | nil =>
    intro s hwf hin hd
    simp only [pushAll, List.foldl_nil]
    exact Pop_of_ne s (distF_ne s (by simpa using hd))
  | cons ch t ih =>
    intro s hwf hin hd
    have hd' : t.length + 1 < distF s := by simpa using hd
    have hne : s.read_ptr ≠ s.write_ptr := distF_ne s (by omega)
    have hwf2 := WF_Push s ch hwf
    have hin2 := InWindow_Push s ch hwf hin
    have hd2 : t.length < distF (Push s ch) := by
      rw [distF_Push s ch hwf hin (by omega)]
      omega
    rw [pushAll_cons, ih (Push s ch) hwf2 hin2 hd2]
    have hb : byteAt (Push s ch).buffer (Push s ch).read_ptr =
        byteAt s.buffer s.read_ptr := by
      rw [Push_buffer, Push_read]
      exact byteAt_set_ne s.buffer s.write_ptr s.read_ptr ch
        (fun hh => hne hh.symm)
    rw [hb, popStep_Push_comm s ch hwf hin.2.1 hin.2.2.2, ← pushAll_cons]

/-- Claim C1 as stated is false: on a capacity-1 buffer (windowSize = 1,
cursors equal at 0) a sequence of n = 1 = windowSize writes followed by 1
read does not return the written byte: after the write the write cursor
wraps back onto the read cursor, so `Pop` reports "nothing to read" and
returns the 0 sentinel instead of the written byte 1. -/
theorem C1_counterexample :
    WF c1cex ∧ InWindow c1cex ∧ c1cex.read_ptr = c1cex.write_ptr ∧
    List.length [1] ≤ GetBufferSize c1cex ∧
    (popN (pushAll c1cex [1]) (List.length [1])).1 ≠ [1] := by
  decide

/-- Claim C1 (amended: the bound must be strict, `n < windowSize` instead of
`n ≤ windowSize`): for every well-formed buffer state whose read and write
cursors are equal and inside the window, pushing the bytes of `l` with
`l.length < windowSize` and then popping `l.length` times returns exactly
the bytes of `l` in the order they were written (FIFO).  At
`n = windowSize` the write cursor wraps fully around onto the read cursor
and the first pop returns the sentinel (see the counterexample). -/
theorem C1_fifo_amended (l : List Nat) (s : CyclicBuffer) (hwf : WF s)
    (hin : InWindow s) (heq : s.read_ptr = s.write_ptr)
    (hn : l.length < GetBufferSize s) :
    (popN (pushAll s l) l.length).1 = l := by
  induction l generalizing s with
  | nil => rfl
  | cons ch t ih =>
    have hn' : t.length + 1 < GetBufferSize s := by simpa using hn
    have hwf2 := WF_Push s ch hwf
    have hin2 := InWindow_Push s ch hwf hin
    have hd2 : t.length < distF (Push s ch) := by
      rw [distF_Push_of_eq s ch hwf hin heq]
      unfold GetBufferSize at hn' ⊢
      omega
    have hpop := pop_pushAll t (Push s ch) hwf2 hin2 hd2
    rw [pushAll_cons]
    show (popN (pushAll (Push s ch) t) (t.length + 1)).1 = ch :: t
    rw [popN_succ, hpop]
    dsimp only
    congr 1
    · rw [Push_buffer, Push_read, heq]
      refine byteAt_set_self s.buffer s.write_ptr ch ?_
      obtain ⟨w1, w2, w3, w4⟩ := hwf
      obtain ⟨i1, i2, i3, i4⟩ := hin
      omega
    · apply ih
      · exact WF_popStep _ hwf2
      · exact InWindow_popStep _ hwf2 hin2
      · rw [popStep_write, popStep_read (Push s ch) hwf2
          (by rw [Push_read, Push_top]; exact hin.2.2.2)]
        rw [Push_read, nextIdx_Push, Push_write s ch hwf hin.2.1, heq]
      · rw [GetBufferSize_popStep, GetBufferSize_Push]
        omega

/-- Witness for C1: a concrete capacity-4 buffer, three writes then three
reads return the three written bytes in order. -/
theorem C1_fifo_witness :
    (popN (pushAll c1wit [10, 20, 30]) 3).1 = [10, 20, 30] :=
  C1_fifo_amended [10, 20, 30] c1wit (by decide) (by decide) (by decide)
    (by decide)

/-- Claim C9 (confirmed): whenever `read_ptr == write_ptr`, `Pop` returns the
zero sentinel and leaves the entire state (cursors included) unchanged. -/
theorem C9_pop_empty (s : CyclicBuffer) (h : s.read_ptr = s.write_ptr) :
    Pop s = (0, s) := by
  unfold Pop
  rw [if_pos h]

/-- Witness for C9 at a concrete state with `read_ptr = write_ptr = 1`. -/
theorem C9_pop_empty_witness : Pop c9wit = (0, c9wit) :=
  C9_pop_empty c9wit (by decide)

/-- Claim C10 (confirmed): with `use_offset = true` the index translation is
`index + bottom_index` in wrapping 32-bit arithmetic, so on a state with
`bottom_index = 1` the index `2^32 - 1` (far above the capacity 4)
translates to 0, inside the allocation: `GetValueAt` returns the stored
byte 7 instead of the sentinel and `SetValueAt` stores its value at
absolute index 0 and returns `BUFFER_OK`. -/
theorem C10_translation_wraps :
    c10state.buffer_size ≤ 4294967295 ∧
    0 < c10state.bottom_index ∧
    translateIndex c10state 4294967295 true = 0 ∧
    GetValueAt c10state 4294967295 true true = 7 ∧
    byteAt c10state.buffer 0 = 7 ∧
    (SetValueAt c10state 4294967295 9 true true).1 = BUFFER_OK ∧
    byteAt (SetValueAt c10state 4294967295 9 true true).2.buffer 0 = 9 := by
  decide

/-- Claim C7 (confirmed): when the underlying `realloc` cannot be satisfied,
`ReallocBuffer` returns `BUFFER_ALLOCATION_ERROR` and every field other
than the cached status — capacity, both borders, both cursors, and the
stored bytes — is exactly as before. -/
theorem C7_realloc_failure (s : CyclicBuffer) (n : Nat) (fresh : List Nat)
    (h0 : n ≠ 0) (h1 : n ≠ s.buffer_size) :
    (ReallocBuffer s n false fresh).1 = BUFFER_ALLOCATION_ERROR ∧
    (ReallocBuffer s n false fresh).2 =
      { s with buffer_error_code := BUFFER_ALLOCATION_ERROR } := by
  unfold ReallocBuffer
  rw [if_neg h0, if_neg h1, if_pos rfl]
  exact ⟨rfl, rfl⟩

/-- Witness for C7: growing a capacity-2 buffer to 3 under allocation
failure leaves everything but the status untouched. -/
theorem C7_realloc_failure_witness :
    (ReallocBuffer c7wit 3 false []).1 = BUFFER_ALLOCATION_ERROR ∧
    (ReallocBuffer c7wit 3 false []).2 =
      { c7wit with buffer_error_code := BUFFER_ALLOCATION_ERROR } :=
  C7_realloc_failure c7wit 3 [] (by decide) (by decide)

/-- Claim C4 as stated is false: `ReallocBuffer(0)` reports
`BUFFER_INCORRECT_SIZE` (the spec's `IncorrectSize`), not
`BUFFER_INVALID_SIZE` (the spec's `InvalidSize`). -/
theorem C4_counterexample :
    (ReallocBuffer c4cex 0 true []).1 = BUFFER_INCORRECT_SIZE ∧
    (ReallocBuffer c4cex 0 true []).1 ≠ BUFFER_INVALID_SIZE := by
  decide

/-- Claim C4 (amended: the zero-size failure code is `IncorrectSize`, and in
both cases the only state change is the cached last-status field): on any
buffer with positive capacity, `ReallocBuffer 0` fails with
`BUFFER_INCORRECT_SIZE` leaving everything but the cached status unchanged,
and `ReallocBuffer` at the current capacity returns `BUFFER_OK` leaving
everything but the cached status unchanged (in particular no indices
change). -/
theorem C4_realloc_amended (s : CyclicBuffer) (alloc_ok : Bool)
    (fresh : List Nat) (hs : 1 ≤ s.buffer_size) :
    ((ReallocBuffer s 0 alloc_ok fresh).1 = BUFFER_INCORRECT_SIZE ∧
      (ReallocBuffer s 0 alloc_ok fresh).2 =
        { s with buffer_error_code := BUFFER_INCORRECT_SIZE }) ∧
    ((ReallocBuffer s s.buffer_size alloc_ok fresh).1 = BUFFER_OK ∧
      (ReallocBuffer s s.buffer_size alloc_ok fresh).2 =
        { s with buffer_error_code := BUFFER_OK }) := by
  constructor
  · unfold ReallocBuffer
    rw [if_pos rfl]
    exact ⟨rfl, rfl⟩
  · unfold ReallocBuffer
    rw [if_neg (by omega), if_pos rfl]
    exact ⟨rfl, rfl⟩

/-- Witness for C4 on a concrete capacity-4 buffer. -/
theorem C4_realloc_witness :
    (ReallocBuffer c4cex 0 true []).2 =
      { c4cex with buffer_error_code := BUFFER_INCORRECT_SIZE } ∧
    (ReallocBuffer c4cex 4 true []).2 =
      { c4cex with buffer_error_code := BUFFER_OK } :=
  ⟨(C4_realloc_amended c4cex true [] (by decide)).1.2,
   (C4_realloc_amended c4cex true [] (by decide)).2.2⟩

/-- Claim C6 as stated is false: `SetValueAt` produces a status
(`BUFFER_INDEX_OUT_OF_RANGE` here) but never stores it in the cached
last-status field, which still reads `BUFFER_OK` afterwards. -/
theorem C6_counterexample :
    (SetValueAt c6cex 5 7 false false).1 = BUFFER_INDEX_OUT_OF_RANGE ∧
    (SetValueAt c6cex 5 7 false false).2.buffer_error_code = BUFFER_OK ∧
    BUFFER_OK ≠ BUFFER_INDEX_OUT_OF_RANGE := by
  decide

/-- Claim C6 (amended): the cursor setters, the border setters and
`ReallocBuffer` do cache their returned status in `buffer_error_code`, but
`SetValueAt` returns its status without caching it, and `Push`, `Pop`,
`ResetBuffer` and `ClearBuffer` produce no status and leave the cached
field unchanged. -/
theorem C6_status_cache_amended (s : CyclicBuffer) (i v n ch : Nat)
    (alloc_ok : Bool) (fresh : List Nat) (uo ob : Bool) :
    (SetPopIndex s i).2.buffer_error_code = (SetPopIndex s i).1 ∧
    (SetPushIndex s i).2.buffer_error_code = (SetPushIndex s i).1 ∧
    (SetTopIndex s i).2.buffer_error_code = (SetTopIndex s i).1 ∧
    (SetBottomIndex s i).2.buffer_error_code = (SetBottomIndex s i).1 ∧
    (ReallocBuffer s n alloc_ok fresh).2.buffer_error_code =
      (ReallocBuffer s n alloc_ok fresh).1 ∧
    (SetValueAt s i v uo ob).2.buffer_error_code = s.buffer_error_code ∧
    (Push s ch).buffer_error_code = s.buffer_error_code ∧
    (Pop s).2.buffer_error_code = s.buffer_error_code ∧
    (ResetBuffer s).buffer_error_code = s.buffer_error_code ∧
    (ClearBuffer s).buffer_error_code = s.buffer_error_code := by
  refine ⟨?_, ?_, ?_, ?_, ?_, ?_, ?_, ?_, ?_, ?_⟩
  · unfold SetPopIndex; split_ifs <;> rfl
  · unfold SetPushIndex; split_ifs <;> rfl
  · unfold SetTopIndex; dsimp only; split_ifs <;> rfl
  · unfold SetBottomIndex; dsimp only; split_ifs <;> rfl
  · unfold ReallocBuffer; dsimp only; split_ifs <;> rfl
  · unfold SetValueAt; dsimp only; split_ifs <;> rfl
  · exact Push_code s ch
  · unfold Pop; split_ifs <;> rfl
  · rfl
  · rfl

/-- Claim C5 as stated is false: an in-range `SetTopIndex 1` on a state with
both cursors at 3 succeeds, but relocates the out-of-window cursors to the
lower border 0, not to the nearest border of the new window (the new upper
border 1). -/
theorem C5_counterexample :
    (SetTopIndex c5cex 1).1 = BUFFER_OK ∧
    (SetTopIndex c5cex 1).2.top_index = 1 ∧
    (SetTopIndex c5cex 1).2.write_ptr = c5cex.bottom_index ∧
    (SetTopIndex c5cex 1).2.read_ptr = c5cex.bottom_index ∧
    (SetTopIndex c5cex 1).2.write_ptr ≠ (SetTopIndex c5cex 1).2.top_index ∧
    (SetTopIndex c5cex 1).2.read_ptr ≠ (SetTopIndex c5cex 1).2.top_index := by
  decide

/-- Claim C5 (amended): in-range border moves succeed with `BUFFER_OK`;
`SetTopIndex` relocates any cursor above the new upper border to the LOWER
border (not the nearest border), while `SetBottomIndex` relocates any
cursor below the new lower border to the new lower border. -/
theorem C5_borders_amended (s : CyclicBuffer) (i : Nat) (hwf : WF s)
    (hin : InWindow s) :
    (s.bottom_index ≤ i → i ≤ s.buffer_size - 1 →
      (SetTopIndex s i).1 = BUFFER_OK ∧
      (SetTopIndex s i).2.top_index = i ∧
      (SetTopIndex s i).2.write_ptr =
        (if i < s.write_ptr then s.bottom_index else s.write_ptr) ∧
      (SetTopIndex s i).2.read_ptr =
        (if i < s.read_ptr then s.bottom_index else s.read_ptr)) ∧
    (i ≤ s.top_index →
      (SetBottomIndex s i).1 = BUFFER_OK ∧
      (SetBottomIndex s i).2.bottom_index = i ∧
      (SetBottomIndex s i).2.write_ptr =
        (if s.write_ptr < i then i else s.write_ptr) ∧
      (SetBottomIndex s i).2.read_ptr =
        (if s.read_ptr < i then i else s.read_ptr)) := by
  obtain ⟨w1, w2, w3, w4⟩ := hwf
  obtain ⟨i1, i2, i3, i4⟩ := hin
  have hu : usub1 s.buffer_size = s.buffer_size - 1 := usub1_eq _ (by omega)
  constructor
  · intro h1 h2
    unfold SetTopIndex
    rw [hu, if_neg (by omega), if_neg (by omega)]
    exact ⟨rfl, rfl, rfl, rfl⟩
  · intro h1
    unfold SetBottomIndex
    rw [hu, if_neg (by omega), if_neg (by omega)]
    exact ⟨rfl, rfl, rfl, rfl⟩

/-- Witness for C5 on the concrete capacity-4 state with cursors at 3:
`SetTopIndex 1` succeeds and sends both cursors to the lower border 0, and
`SetBottomIndex 1` succeeds and leaves the cursors (already above 1)
alone. -/
theorem C5_borders_witness :
    ((SetTopIndex c5cex 1).1 = BUFFER_OK ∧
      (SetTopIndex c5cex 1).2.top_index = 1 ∧
      (SetTopIndex c5cex 1).2.write_ptr =
        (if 1 < c5cex.write_ptr then c5cex.bottom_index else c5cex.write_ptr) ∧
      (SetTopIndex c5cex 1).2.read_ptr =
        (if 1 < c5cex.read_ptr then c5cex.bottom_index else c5cex.read_ptr)) ∧
    ((SetBottomIndex c5cex 1).1 = BUFFER_OK ∧
      (SetBottomIndex c5cex 1).2.bottom_index = 1 ∧
      (SetBottomIndex c5cex 1).2.write_ptr =
        (if c5cex.write_ptr < 1 then 1 else c5cex.write_ptr) ∧
      (SetBottomIndex c5cex 1).2.read_ptr =
        (if c5cex.read_ptr < 1 then 1 else c5cex.read_ptr)) :=
  ⟨(C5_borders_amended c5cex 1 (by decide) (by decide)).1 (by decide)
      (by decide),
   (C5_borders_amended c5cex 1 (by decide) (by decide)).2 (by decide)⟩

theorem GetValueAt_zero_of_ge (s : CyclicBuffer) (i : Nat) (uo ob : Bool)
    (h : translateIndex s i uo ≥ s.buffer_size) : GetValueAt s i uo ob = 0 := by
  unfold GetValueAt
  dsimp only
  rw [if_pos h]

theorem GetValueAt_eq_byteAt (s : CyclicBuffer) (i : Nat) (uo ob : Bool)
    (h1 : ¬ translateIndex s i uo ≥ s.buffer_size)
    (h2 : ¬ (ob = false ∧ (translateIndex s i uo > s.top_index ∨
        translateIndex s i uo < s.bottom_index))) :
    GetValueAt s i uo ob = byteAt s.buffer (translateIndex s i uo) := by
  unfold GetValueAt
  dsimp only
  rw [if_neg h1, if_neg h2]

theorem SetValueAt_of_ge (s : CyclicBuffer) (i v : Nat) (uo ob : Bool)
    (h : translateIndex s i uo ≥ s.buffer_size) :
    SetValueAt s i v uo ob = (BUFFER_INDEX_OUT_OF_RANGE, s) := by
  unfold SetValueAt
  dsimp only
  rw [if_pos h]

theorem SetValueAt_of_outside (s : CyclicBuffer) (i v : Nat) (uo ob : Bool)
    (h1 : ¬ translateIndex s i uo ≥ s.buffer_size)
    (h2 : ob = false ∧ (translateIndex s i uo > s.top_index ∨
        translateIndex s i uo < s.bottom_index)) :
    SetValueAt s i v uo ob = (BUFFER_INDEX_OUT_OF_RANGE, s) := by
  unfold SetValueAt
  dsimp only
  rw [if_neg h1, if_pos h2]

theorem SetValueAt_of_ok (s : CyclicBuffer) (i v : Nat) (uo ob : Bool)
    (h1 : ¬ translateIndex s i uo ≥ s.buffer_size)
    (h2 : ¬ (ob = false ∧ (translateIndex s i uo > s.top_index ∨
        translateIndex s i uo < s.bottom_index))) :
    SetValueAt s i v uo ob =
      (BUFFER_OK,
        { s with buffer := s.buffer.set (translateIndex s i uo) v }) := by
  unfold SetValueAt
  dsimp only
  rw [if_neg h1, if_neg h2]

/-- Claim C8 (confirmed): whenever `SetValueAt` succeeds, an immediately
following `GetValueAt` at the same index with the same
`use_offset`/`look_outside_borders` flags returns the just-written value;
and whenever the translated index is at least the capacity, `GetValueAt`
returns the zero sentinel while `SetValueAt` reports
`BUFFER_INDEX_OUT_OF_RANGE`. -/
theorem C8_setget (s : CyclicBuffer) (i v : Nat) (uo ob : Bool)
    (hwf : WF s) :
    ((SetValueAt s i v uo ob).1 = BUFFER_OK →
      GetValueAt (SetValueAt s i v uo ob).2 i uo ob = v) ∧
    (translateIndex s i uo ≥ s.buffer_size →
      GetValueAt s i uo ob = 0 ∧
      (SetValueAt s i v uo ob).1 = BUFFER_INDEX_OUT_OF_RANGE) := by
  constructor
  · intro hok
    have h1 : ¬ translateIndex s i uo ≥ s.buffer_size := by
      intro h
      rw [SetValueAt_of_ge s i v uo ob h] at hok
      cases hok
    have h2 : ¬ (ob = false ∧ (translateIndex s i uo > s.top_index ∨
        translateIndex s i uo < s.bottom_index)) := by
      intro h
      rw [SetValueAt_of_outside s i v uo ob h1 h] at hok
      cases hok
    rw [SetValueAt_of_ok s i v uo ob h1 h2]
    rw [GetValueAt_eq_byteAt
      { s with buffer := s.buffer.set (translateIndex s i uo) v } i uo ob h1 h2]
    refine byteAt_set_self s.buffer (translateIndex s i uo) v ?_
    obtain ⟨w1, _, _, _⟩ := hwf
    omega
  · intro h
    exact ⟨GetValueAt_zero_of_ge s i uo ob h, by rw [SetValueAt_of_ge s i v uo ob h]⟩

/-- Witness for C8: on a concrete capacity-3 buffer, writing 42 at window
offset 1 and reading it back returns 42, while index 7 (translating to
7 ≥ 3) yields the sentinel and the out-of-range status. -/
theorem C8_setget_witness :
    GetValueAt (SetValueAt c8wit 1 42 true false).2 1 true false = 42 ∧
    (GetValueAt c8wit 7 true false = 0 ∧
      (SetValueAt c8wit 7 9 true false).1 = BUFFER_INDEX_OUT_OF_RANGE) :=
  ⟨(C8_setget c8wit 1 42 true false (by decide)).1 (by decide),
   (C8_setget c8wit 7 9 true false (by decide)).2 (by decide)⟩

/-- Claim C3 as stated is false: constructing a capacity-1 buffer from an
allocation whose (indeterminate) content is the byte 5 succeeds and sets all
indices as claimed, but the byte at index `c - 1 = 0` is NOT zeroed: the
constructor's `ClearBuffer` loop stops strictly before `top_index`, so the
buffer still holds 5. -/
theorem C3_counterexample :
    construct 1 [5] = some ⟨BUFFER_UNDEFINED_ERROR, [5], 1, 0, 0, 0, 0⟩ ∧
    byteAt [5] 0 ≠ 0 := by
  decide

/-- Claim C3 (amended: the constructor zeroes only the bytes `0 .. c-2`; the
final byte of the window, at index `c - 1`, keeps whatever the fresh
allocation contained): for every capacity `c ≥ 1` construction succeeds and
sets `bottom_index = 0`, `top_index = c - 1`, `write_ptr = read_ptr = 0`. -/
theorem C3_construct_amended (c : Nat) (mem : List Nat) (hc : 1 ≤ c)
    (hm : mem.length = c) :
    ∃ s, construct c mem = some s ∧
      s.bottom_index = 0 ∧ s.top_index = c - 1 ∧ s.write_ptr = 0 ∧
      s.read_ptr = 0 ∧ s.buffer.length = c ∧
      (∀ i, i < c - 1 → byteAt s.buffer i = 0) ∧
      byteAt s.buffer (c - 1) = byteAt mem (c - 1) := by
  have hc0 : ¬ c = 0 := by omega
  unfold construct
  rw [if_neg hc0]
  refine ⟨_, rfl, rfl, rfl, rfl, rfl, ?_, ?_, ?_⟩
  · show (zeroFrom mem 0 (c - 1 - 0)).length = c
    rw [zeroFrom_length, hm]
  · intro i hi
    show byteAt (zeroFrom mem 0 (c - 1 - 0)) i = 0
    exact byteAt_zeroFrom_mid (c - 1 - 0) mem 0 i (by omega) (by omega)
      (by omega)
  · show byteAt (zeroFrom mem 0 (c - 1 - 0)) (c - 1) = byteAt mem (c - 1)
    exact byteAt_zeroFrom_hi (c - 1 - 0) mem 0 (c - 1) (by omega)

/-- Witness for C3: constructing capacity 3 from an allocation containing
bytes 8, 8, 8 gives a buffer whose first two bytes are zeroed and whose
last byte still holds 8. -/
theorem C3_construct_witness :
    ∃ s, construct 3 [8, 8, 8] = some s ∧
      s.bottom_index = 0 ∧ s.top_index = 3 - 1 ∧ s.write_ptr = 0 ∧
      s.read_ptr = 0 ∧ s.buffer.length = 3 ∧
      (∀ i, i < 3 - 1 → byteAt s.buffer i = 0) ∧
      byteAt s.buffer (3 - 1) = byteAt [8, 8, 8] (3 - 1) :=
  C3_construct_amended 3 [8, 8, 8] (by decide) (by decide)

/-- Claim C2 as stated is false: shrinking the capacity-10 buffer with window
[5, 9] and write cursor 9 to capacity 8 resets the out-of-range write
cursor to absolute 0, strictly below the (unchanged) lower border 5, so
`lowerBorder ≤ writeCursor` is violated after `ReallocBuffer`. -/
theorem C2_counterexample :
    WF c2cex ∧ InWindow c2cex ∧
    (ReallocBuffer c2cex 8 true []).1 = BUFFER_OK ∧
    (ReallocBuffer c2cex 8 true []).2.write_ptr <
      (ReallocBuffer c2cex 8 true []).2.bottom_index ∧
    ¬ InWindow (ReallocBuffer c2cex 8 true []).2 := by
  decide

/-- Claim C2 (amended): starting from any well-formed state satisfying the
cursor invariant, every public operation except `ReallocBuffer` preserves
`lowerBorder ≤ writeCursor ≤ upperBorder` and
`lowerBorder ≤ readCursor ≤ upperBorder`; `ReallocBuffer` always preserves
the read-cursor half and `writeCursor ≤ upperBorder`, but may reset the
write cursor to absolute 0 below a positive lower border. -/
theorem C2_invariant_amended (s : CyclicBuffer) (hwf : WF s)
    (hin : InWindow s) :
    (∀ ch, InWindow (Push s ch)) ∧
    InWindow (Pop s).2 ∧
    (∀ i, InWindow (SetPopIndex s i).2) ∧
    (∀ i, InWindow (SetPushIndex s i).2) ∧
    (∀ i, InWindow (SetTopIndex s i).2) ∧
    (∀ i, InWindow (SetBottomIndex s i).2) ∧
    InWindow (ResetBuffer s) ∧
    InWindow (ClearBuffer s) ∧
    (∀ i v uo ob, InWindow (SetValueAt s i v uo ob).2) ∧
    (∀ n alloc_ok fresh,
      (ReallocBuffer s n alloc_ok fresh).2.bottom_index ≤
        (ReallocBuffer s n alloc_ok fresh).2.read_ptr ∧
      (ReallocBuffer s n alloc_ok fresh).2.read_ptr ≤
        (ReallocBuffer s n alloc_ok fresh).2.top_index ∧
      (ReallocBuffer s n alloc_ok fresh).2.write_ptr ≤
        (ReallocBuffer s n alloc_ok fresh).2.top_index) := by
  obtain ⟨w1, w2, w3, w4⟩ := hwf
  obtain ⟨i1, i2, i3, i4⟩ := hin
  have hu : usub1 s.buffer_size = s.buffer_size - 1 := usub1_eq _ (by omega)
  refine ⟨?_, ?_, ?_, ?_, ?_, ?_, ?_, ?_, ?_, ?_⟩
  · intro ch
    exact InWindow_Push s ch ⟨w1, w2, w3, w4⟩ ⟨i1, i2, i3, i4⟩
  · by_cases h : s.read_ptr = s.write_ptr
    · unfold Pop
      rw [if_pos h]
      exact ⟨i1, i2, i3, i4⟩
    · rw [Pop_of_ne s h]
      exact InWindow_popStep s ⟨w1, w2, w3, w4⟩ ⟨i1, i2, i3, i4⟩
  · intro i
    unfold SetPopIndex InWindow
    split_ifs <;> dsimp only <;> omega
  · intro i
    unfold SetPushIndex InWindow
    split_ifs <;> dsimp only <;> omega
  · intro i
    unfold SetTopIndex InWindow
    rw [hu]
    dsimp only
    split_ifs <;> dsimp only <;> omega
  · intro i
    unfold SetBottomIndex InWindow
    rw [hu]
    dsimp only
    split_ifs <;> dsimp only <;> omega
  · unfold ResetBuffer InWindow
    dsimp only
    rw [hu]
    omega
  · unfold ClearBuffer InWindow
    dsimp only
    exact ⟨i1, i2, i3, i4⟩
  · intro i v uo ob
    unfold SetValueAt InWindow
    dsimp only
    split_ifs <;> dsimp only <;> omega
  · intro n alloc_ok fresh
    unfold ReallocBuffer
    dsimp only
    split_ifs <;> dsimp only <;> omega

/-- Witness for C2 at the concrete capacity-10 state: a push preserves the
cursor invariant and a realloc to capacity 8 keeps the read cursor inside
the window. -/
theorem C2_invariant_witness :
    InWindow (Push c2cex 1) ∧
    (ReallocBuffer c2cex 8 true []).2.bottom_index ≤
      (ReallocBuffer c2cex 8 true []).2.read_ptr :=
  ⟨(C2_invariant_amended c2cex (by decide) (by decide)).1 1,
   ((C2_invariant_amended c2cex (by decide) (by decide)).2.2.2.2.2.2.2.2.2
      8 true []).1⟩
